import Mathlib

/-!
Verification of the MERN authentication boilerplate backend.

The backend's source (middlewares/auth.js, middlewares/csrfProtection.js,
middlewares/errorHandler.js, utils/jwt.js, controllers/auth.controller.js,
models/User.js) is embedded shallowly below.  Machine integers do not occur;
times are modelled as Nat (milliseconds or seconds, as in the source), strings
as Lean String.  The bcrypt hash and the HMAC-SHA256 tag of jsonwebtoken are
modelled as fixed executable functions; their only property used by the code
is tamper evidence (a changed tag or a different candidate fails the equality
check), which the models share.
-/

namespace MernAuth

/-- JavaScript truthiness of an optional string value: `undefined` and the
empty string are falsy (as in `if (req.cookies.token)`). -/
def jsTruthy : Option String → Bool
  | some s => s ≠ ""
  | none => false

/-- JavaScript `s.startsWith(pre)`. -/
def jsStartsWith (s pre : String) : Bool :=
  pre.data.isPrefixOf s.data

/-- Split a character list at every occurrence of `sep`, keeping empty
pieces, as JavaScript `split` does. -/
def splitChars (sep : Char) : List Char → List (List Char)
  | [] => [[]]
  | c :: cs =>
    let r := splitChars sep cs
    if c = sep then [] :: r
    else
      match r with
      | [] => [[c]]
      | l :: ls => (c :: l) :: ls

/-- JavaScript `s.split(sep)` for a one-character separator. -/
def jsSplit (sep : Char) (s : String) : List String :=
  (splitChars sep s.data).map String.mk

/-- Parse a nonempty all-digit string as a natural number. -/
def parseNat? (s : String) : Option Nat :=
  match s.data with
  | [] => none
  | cs =>
    cs.foldl
      (fun acc c =>
        match acc with
        | none => none
        | some n =>
          let d := c.toNat
          if 48 ≤ d ∧ d ≤ 57 then some (n * 10 + (d - 48)) else none)
      (some 0)

/-- A persisted user record (models/User.js): unique username and email,
bcrypt-hashed password, `isActive` defaulting to true.  The `select: false`
on the password only affects serialization and is irrelevant to the claims. -/
structure User where
  id : Nat
  username : String
  email : String
  passwordHash : Nat
  isActive : Bool
deriving DecidableEq, Repr

/-- Model of `bcrypt.hash(s, 12)`: a fixed executable digest of the plaintext. -/
def bcryptHash (s : String) : Nat :=
  s.data.foldl (fun h c => h * 131 + c.toNat + 1) 7

/-- Model of `bcrypt.compare(candidate, storedHash)` as used by
`userSchema.methods.correctPassword`. -/
def bcryptCompare (candidate : String) (storedHash : Nat) : Bool :=
  bcryptHash candidate = storedHash

/-- `User.findById(id)` on the store. -/
def findById (store : List User) (uid : Nat) : Option User :=
  store.find? (fun u => u.id = uid)

/-- `User.findOne({ email })` on the store. -/
def findByEmail (store : List User) (email : String) : Option User :=
  store.find? (fun u => u.email = email)

/-- Administrative deactivation performed directly in the store: sets
`isActive` to false on the record with the given id. -/
def deactivate (store : List User) (uid : Nat) : List User :=
  store.map (fun u => if u.id = uid then { u with isActive := false } else u)

/-- The operational error of middlewares/errorHandler.js: message, HTTP
status code, derived `status` string, `isOperational` flag. -/
structure AppError where
  message : String
  statusCode : Nat
  status : String
  isOperational : Bool
deriving DecidableEq, Repr

/-- `new AppError(message, statusCode)`: `status` is "fail" when the decimal
status code starts with the character 4, otherwise "error";
`isOperational` is always true. -/
def mkAppError (message : String) (statusCode : Nat) : AppError :=
  { message := message
    statusCode := statusCode
    status := if jsStartsWith (toString statusCode) "4" then "fail" else "error"
    isOperational := true }

/-- The duplicate-key signal of the store (MongoDB error code 11000):
`keyPattern`/`keyValue` reduced to the offending field and value. -/
structure DupKey where
  field : String
  value : String
deriving DecidableEq, Repr

/-- `handleDuplicateFieldsDB` of middlewares/errorHandler.js. -/
def handleDuplicateFieldsDB (dup : DupKey) : AppError :=
  mkAppError
    ("Duplicate field value: " ++ dup.field ++ " = \"" ++ dup.value ++
      "\". Please use another value")
    400

/-- `handleJWTError` of middlewares/errorHandler.js. -/
def handleJWTError : AppError :=
  mkAppError "Invalid token. Please log in again" 401

/-- `handleJWTExpiredError` of middlewares/errorHandler.js. -/
def handleJWTExpiredError : AppError :=
  mkAppError "Token expired. Please log in again" 401

/-- JavaScript `a || b` on a possibly-absent number (0 is falsy), as in
`err.statusCode = err.statusCode || 500`. -/
def jsOrNat (o : Option Nat) (d : Nat) : Nat :=
  match o with
  | some v => if v = 0 then d else v
  | none => d

/-- JavaScript `a || b` on a possibly-absent string ("" is falsy), as in
`err.status = err.status || 'error'`. -/
def jsOrStr (o : Option String) (d : String) : String :=
  match o with
  | some s => if s = "" then d else s
  | none => d

/-- An incoming error as seen by `errorHandler` before defaulting: it may
lack `statusCode` and `status`. -/
structure RawErr where
  statusCode : Option Nat
  status : Option String
deriving DecidableEq, Repr

/-- The defaulting prologue of `errorHandler`:
`err.statusCode = err.statusCode || 500; err.status = err.status || 'error'`. -/
def errorHandlerDefaults (e : RawErr) : Nat × String :=
  (jsOrNat e.statusCode 500, jsOrStr e.status "error")

/-- The uniqueness enforcement of the store (unique indexes on username and
email): `User.create` either inserts or aborts with the duplicate-key
signal, leaving the store unchanged. -/
def insertUser (store : List User) (u : User) : Except DupKey (List User) :=
  if store.any (fun v => v.username = u.username) then
    .error ⟨"username", u.username⟩
  else if store.any (fun v => v.email = u.email) then
    .error ⟨"email", u.email⟩
  else
    .ok (store ++ [u])

/-- `register` (controllers/auth.controller.js): create the user (the
pre-save hook hashes the password); a store-level duplicate-key failure
propagates to `errorHandler`, which maps it through
`handleDuplicateFieldsDB`.  Returns the resulting store and the response. -/
def register (store : List User) (nextId : Nat)
    (username email password : String) : List User × Except AppError User :=
  let u : User :=
    { id := nextId, username := username, email := email
      passwordHash := bcryptHash password, isActive := true }
  match insertUser store u with
  | .error dup => (store, .error (handleDuplicateFieldsDB dup))
  | .ok store2 => (store2, .ok u)

/-- `login` (controllers/auth.controller.js): look up by email including the
password hash; a missing user and a failed bcrypt comparison take the same
branch and throw the same `AppError`. -/
def login (store : List User) (email password : String) : Except AppError User :=
  match findByEmail store email with
  | none => .error (mkAppError "Incorrect email or password" 401)
  | some u =>
    if bcryptCompare password u.passwordHash then .ok u
    else .error (mkAppError "Incorrect email or password" 401)

/-- `sendErrorProd`: operational errors are serialized as
`{ status, message }` with their own status code; others become a generic
500 response. -/
structure ErrorResponse where
  httpStatus : Nat
  status : String
  message : String
deriving DecidableEq, Repr

/-- Production serialization of an error (middlewares/errorHandler.js). -/
def sendErrorProd (e : AppError) : ErrorResponse :=
  if e.isOperational then ⟨e.statusCode, e.status, e.message⟩
  else ⟨500, "error", "Something went wrong!"⟩

/-- A signed JWT (utils/jwt.js, jsonwebtoken): payload `{ id }` plus `iat`
and `exp` in seconds, and the HMAC tag over payload and secret. -/
structure Token where
  id : Nat
  iat : Nat
  exp : Nat
  sig : Nat
deriving DecidableEq, Repr

/-- Model of the HMAC-SHA256 tag: a fixed executable function of the secret
and the signed claims.  Tamper evidence is the equality check at verify
time, exactly as in the code's use of the library. -/
def tokenSig (secret uid iat exp : Nat) : Nat :=
  (secret + 1) * 1000003 + uid * 10007 + iat * 101 + exp

/-- `signToken` / `jwt.sign({ id }, secret, { expiresIn })`:
`iat` is the signing time in seconds, `exp = iat + ttl`. -/
def signToken (secret uid nowSec ttlSec : Nat) : Token :=
  { id := uid, iat := nowSec, exp := nowSec + ttlSec
    sig := tokenSig secret uid nowSec (nowSec + ttlSec) }

/-- Compact-serialized form of a token, the string carried by cookie or
header. -/
def encodeToken (t : Token) : String :=
  toString t.id ++ "." ++ toString t.iat ++ "." ++ toString t.exp ++ "." ++
    toString t.sig

/-- Parse of the compact serialization; anything else is a malformed token. -/
def decodeToken (s : String) : Option Token :=
  match (jsSplit '.' s).mapM parseNat? with
  | some [a, b, c, d] => some ⟨a, b, c, d⟩
  | _ => none

/-- The failures `jwt.verify` can throw: `JsonWebTokenError` for a malformed
token or a bad signature (distinguished in the error detail), and
`TokenExpiredError` for an expired one. -/
inductive VerifyError where
  | malformed
  | badSignature
  | expired
deriving DecidableEq, Repr

/-- `jwt.verify(token, secret)`: decode, check the tag, check expiry against
the clock (expired when `exp ≤ now`), and return the embedded user id. -/
def jwtVerify (secret nowSec : Nat) (s : String) : Except VerifyError Nat :=
  match decodeToken s with
  | none => .error .malformed
  | some tok =>
    if tok.sig ≠ tokenSig secret tok.id tok.iat tok.exp then
      .error .badSignature
    else if tok.exp ≤ nowSec then .error .expired
    else .ok tok.id

/-- The parts of an inbound request the `protect` middleware reads:
`req.cookies.token` and `req.headers.authorization`. -/
structure Request where
  cookieToken : Option String
  authorization : Option String
deriving DecidableEq, Repr

/-- Step 1 of `protect` (middlewares/auth.js): the cookie wins when truthy;
otherwise an `Authorization` header starting with `Bearer` supplies
`header.split(' ')[1]`. -/
def extractToken (req : Request) : Option String :=
  if jsTruthy req.cookieToken then req.cookieToken
  else
    match req.authorization with
    | some h => if jsStartsWith h "Bearer" then (jsSplit ' ' h).get? 1 else none
    | none => none

/-- The distinct rejections of `protect`, in pipeline order. -/
inductive AuthErr where
  | noToken
  | jwt (e : VerifyError)
  | userMissing
  | deactivated
deriving DecidableEq, Repr

/-- Result of running `protect`, instrumented with the number of Credential
Store reads the run performed. -/
structure ProtectTrace where
  outcome : Except AuthErr User
  storeReads : Nat
deriving Repr

/-- The `protect` middleware (middlewares/auth.js): extract, require a
truthy token, verify, resolve the user (one store read), require the
active flag, and attach the user. -/
def protect (store : List User) (secret nowSec : Nat) (req : Request) :
    ProtectTrace :=
  match extractToken req with
  | none => ⟨.error .noToken, 0⟩
  | some t =>
    if t = "" then ⟨.error .noToken, 0⟩
    else
      match jwtVerify secret nowSec t with
      | .error e => ⟨.error (.jwt e), 0⟩
      | .ok uid =>
        match findById store uid with
        | none => ⟨.error .userMissing, 1⟩
        | some user =>
          if user.isActive then ⟨.ok user, 1⟩
          else ⟨.error .deactivated, 1⟩

/-- The `AppError` each `protect` rejection reaches the client as, after the
central error handler (production branch maps the two jsonwebtoken error
names through `handleJWTError` / `handleJWTExpiredError`). -/
def authErrToAppError : AuthErr → AppError
  | .noToken => mkAppError "You are not logged in" 401
  | .jwt .malformed => handleJWTError
  | .jwt .badSignature => handleJWTError
  | .jwt .expired => handleJWTExpiredError
  | .userMissing => mkAppError "User no longer exists" 401
  | .deactivated => mkAppError "User account is deactivated" 401

/-- Observable result of a protected request: the resolved user, or the
`AppError` serialized by the central handler. -/
def protectResponse (store : List User) (secret nowSec : Nat)
    (req : Request) : Except AppError User :=
  match (protect store secret nowSec req).outcome with
  | .error e => .error (authErrToAppError e)
  | .ok u => .ok u

/-- An HTTP cookie as set by the backend. -/
structure Cookie where
  name : String
  value : String
  expiresMs : Nat
  httpOnly : Bool
  secure : Bool
  sameSite : String
deriving DecidableEq, Repr

/-- The environment configuration the core reads: signing secret, token TTL
(`JWT_EXPIRES_IN`, parsed to seconds, default 7d = 604800), cookie lifetime
in days (`JWT_COOKIE_EXPIRES_IN`), and `NODE_ENV`. -/
structure Config where
  jwtSecret : Nat
  jwtExpiresInSec : Nat
  jwtCookieExpiresInDays : Nat
  nodeEnv : String
deriving DecidableEq, Repr

/-- `createSendToken` (utils/jwt.js): sign a token for the user and set the
`token` cookie with `expires = Date.now() + JWT_COOKIE_EXPIRES_IN * 24 * 60 *
60 * 1000` and the environment-dependent attributes.  `now` is in
milliseconds; jsonwebtoken stamps `iat` in whole seconds. -/
def createSendToken (cfg : Config) (uid : Nat) (nowMs : Nat) :
    Token × Cookie :=
  let token := signToken cfg.jwtSecret uid (nowMs / 1000) cfg.jwtExpiresInSec
  let cookie : Cookie :=
    { name := "token"
      value := encodeToken token
      expiresMs := nowMs + cfg.jwtCookieExpiresInDays * 24 * 60 * 60 * 1000
      httpOnly := true
      secure := cfg.nodeEnv = "production"
      sameSite := if cfg.nodeEnv = "production" then "none" else "strict" }
  (token, cookie)

/-- Instant (in milliseconds) at which a token's embedded expiry falls. -/
def tokenExpiresMs (t : Token) : Nat := t.exp * 1000

/-- Result of the `logout` handler: the (untouched) store, the overwriting
cookie, and the JSON response. -/
structure LogoutResult where
  store : List User
  cookie : Cookie
  httpStatus : Nat
  message : String
deriving Repr

/-- `logout` (controllers/auth.controller.js): overwrite the cookie with the
sentinel value "none" expiring 10 seconds from now; no server-side state is
touched. -/
def logout (store : List User) (nowMs : Nat) (nodeEnv : String) :
    LogoutResult :=
  { store := store
    cookie :=
      { name := "token"
        value := "none"
        expiresMs := nowMs + 10 * 1000
        httpOnly := true
        secure := nodeEnv = "production"
        sameSite := if nodeEnv = "production" then "none" else "strict" }
    httpStatus := 200
    message := "Logged out successfully" }

/-- The parts of a request the CSRF middleware reads. -/
structure CsrfRequest where
  method : String
  origin : Option String
  referer : Option String
deriving DecidableEq, Repr

/-- Outcome of the CSRF middleware: fall through to `next()` or answer 403. -/
inductive CsrfOutcome where
  | passed
  | rejected (httpStatus : Nat) (status message : String)
deriving DecidableEq, Repr

/-- `csrfProtection` (middlewares/csrfProtection.js): skip outside
production and for GET/HEAD/OPTIONS; reject a present-and-mismatched
`Origin`; reject a present `Referer` that does not start with the allowed
origin; otherwise fall through. -/
def csrfProtection (nodeEnv allowedOrigin : String) (req : CsrfRequest) :
    CsrfOutcome :=
  if nodeEnv ≠ "production" ∨ req.method ∈ ["GET", "HEAD", "OPTIONS"] then
    .passed
  else if jsTruthy req.origin ∧ req.origin.getD "" ≠ allowedOrigin then
    .rejected 403 "error" "CSRF validation failed"
  else if jsTruthy req.referer ∧
      ¬ jsStartsWith (req.referer.getD "") allowedOrigin then
    .rejected 403 "error" "CSRF validation failed"
  else .passed

/-- Status code of an error result, if it is one. -/
def exceptStatusCode {α : Type} : Except AppError α → Option Nat
  | .error e => some e.statusCode
  | .ok _ => none

/-- Concrete active user for instantiations. -/
def aliceUser : User :=
  ⟨1, "alice", "alice@example.com", bcryptHash "Secur3Pass!", true⟩

/-- Concrete deactivated user for instantiations. -/
def bobInactive : User :=
  ⟨2, "bob", "bob@example.com", bcryptHash "Secur3Pass!", false⟩

/-- A valid token for `aliceUser` under secret 3, issued at 0 with a 7-day
TTL. -/
def aliceToken : Token := signToken 3 1 0 604800

/-- A request presenting `aliceToken` in the cookie. -/
def aliceReq : Request := ⟨some (encodeToken aliceToken), none⟩

/-- Deactivating a user commutes with the id lookup: the lookup afterwards
returns the same record with the active flag cleared. -/
theorem findById_deactivate (store : List User) (uid : Nat) :
    findById (deactivate store uid) uid =
      (findById store uid).map (fun u => { u with isActive := false }) := by
  induction store with
  | nil => rfl
  | cons v vs ih =>
    by_cases h : v.id = uid
    · simp [findById, deactivate, List.find?, h]
    · simpa [findById, deactivate, List.find?, h] using ih

/-- Claim C1, counterexample: a token that passes verification and resolves
to an existing user whose active flag is false is rejected with status 401
(message "User account is deactivated"), not with the claimed 403. -/
theorem claim_C1_counterexample :
    jwtVerify 3 100 (encodeToken (signToken 3 2 0 604800)) = .ok 2 ∧
    findById [bobInactive] 2 = some bobInactive ∧
    bobInactive.isActive = false ∧
    protectResponse [bobInactive] 3 100
        ⟨some (encodeToken (signToken 3 2 0 604800)), none⟩ =
      .error (mkAppError "User account is deactivated" 401) ∧
    (mkAppError "User account is deactivated" 401).statusCode = 401 ∧
    (mkAppError "User account is deactivated" 401).statusCode ≠ 403 :=
  ⟨rfl, rfl, rfl, rfl, rfl, by decide⟩

/-- Claim C1 (amended): for every protected request carrying a token that
passes signature and expiry verification and resolves to an existing user
whose active flag is false, the guard rejects with HTTP 401 and message
"User account is deactivated"; and a previously-valid (accepted) token is so
rejected on the next request after the user is deactivated directly in the
store, without reissuing or altering the token. -/
theorem claim_C1 (store : List User) (secret nowSec : Nat) (req : Request)
    (t : String) (uid : Nat) (user : User)
    (hx : extractToken req = some t) (ht : t ≠ "")
    (hv : jwtVerify secret nowSec t = .ok uid)
    (hf : findById store uid = some user) :
    (user.isActive = false →
      protectResponse store secret nowSec req =
        .error (mkAppError "User account is deactivated" 401)) ∧
    (user.isActive = true →
      protectResponse store secret nowSec req = .ok user ∧
      protectResponse (deactivate store uid) secret nowSec req =
        .error (mkAppError "User account is deactivated" 401)) := by
  have hd := findById_deactivate store uid
  rw [hf] at hd
  constructor
  · intro hina
    simp [protectResponse, protect, hx, ht, hv, hf, hina, authErrToAppError]
  · intro hact
    constructor
    · simp [protectResponse, protect, hx, ht, hv, hf, hact]
    · simp [protectResponse, protect, hx, ht, hv, hd, authErrToAppError]

/-- Claim C1, witness: a concrete accepted token is rejected with the 401
deactivation error after the user is deactivated in the store. -/
theorem claim_C1_witness :
    protectResponse [aliceUser] 3 100 aliceReq = .ok aliceUser ∧
    protectResponse (deactivate [aliceUser] 1) 3 100 aliceReq =
      .error (mkAppError "User account is deactivated" 401) :=
  (claim_C1 [aliceUser] 3 100 aliceReq (encodeToken aliceToken) 1 aliceUser
    rfl (by decide) rfl rfl).2 rfl

/-- Claim C2, counterexample: registering with an email that already exists
yields status 400 (from `handleDuplicateFieldsDB`), not the claimed 409. -/
theorem claim_C2_counterexample :
    exceptStatusCode
        (register [aliceUser] 2 "bob" "alice@example.com" "hunter2").2 =
      some 400 ∧
    (some 400 : Option Nat) ≠ some 409 ∧
    (register [aliceUser] 2 "bob" "alice@example.com" "hunter2").1 =
      [aliceUser] :=
  ⟨rfl, by decide, rfl⟩

/-- Claim C2 (amended): a registration whose username or email already
exists fails with HTTP 400 (the duplicate-key signal mapped by
`handleDuplicateFieldsDB`), no new record is persisted, and the store — in
particular the pre-existing record — is unchanged. -/
theorem claim_C2 (store : List User) (nextId : Nat)
    (username email password : String)
    (hdup : store.any (fun v => v.username = username) = true ∨
      store.any (fun v => v.email = email) = true) :
    (register store nextId username email password).1 = store ∧
    exceptStatusCode (register store nextId username email password).2 =
      some 400 := by
  by_cases h1 : store.any (fun v => v.username = username) = true
  · simp [register, insertUser, h1, exceptStatusCode,
      handleDuplicateFieldsDB, mkAppError]
  · rcases hdup with h | h
    · exact absurd h h1
    · simp [register, insertUser, h1, h, exceptStatusCode,
        handleDuplicateFieldsDB, mkAppError]

/-- Claim C2, witness: concrete duplicate-email registration against a
one-user store. -/
theorem claim_C2_witness :
    (register [aliceUser] 2 "bob" "alice@example.com" "hunter2").1 =
      [aliceUser] ∧
    exceptStatusCode
        (register [aliceUser] 2 "bob" "alice@example.com" "hunter2").2 =
      some 400 :=
  claim_C2 [aliceUser] 2 "bob" "alice@example.com" "hunter2"
    (Or.inr (by decide))

/-- Claim C3: evaluation of the CSRF middleware at the divergent input — a
production-mode state-mutating request carrying neither an Origin nor a
Referer header falls through to `next()` instead of being rejected. -/
theorem claim_C3 :
    csrfProtection "production" "http://localhost:3000"
      ⟨"POST", none, none⟩ = .passed := rfl

/-- Claim C4: a login with an unknown email and a login with a known email
but a failing bcrypt comparison produce the identical response — the same
`AppError` with status 401 and message "Incorrect email or password" — so
the two failure causes are indistinguishable to the caller. -/
theorem claim_C4 (store : List User) (email1 email2 pw1 pw2 : String)
    (u : User)
    (h1 : findByEmail store email1 = none)
    (h2 : findByEmail store email2 = some u)
    (h3 : bcryptCompare pw2 u.passwordHash = false) :
    login store email1 pw1 = login store email2 pw2 ∧
    login store email1 pw1 =
      .error (mkAppError "Incorrect email or password" 401) ∧
    (mkAppError "Incorrect email or password" 401).statusCode = 401 ∧
    sendErrorProd (mkAppError "Incorrect email or password" 401) =
      ⟨401, "fail", "Incorrect email or password"⟩ := by
  unfold login
  rw [h1, h2]
  refine ⟨?_, rfl, rfl, by decide⟩
  simp [h3]

/-- Claim C4, witness: nonexistent email versus wrong password against a
concrete store. -/
theorem claim_C4_witness :
    login [aliceUser] "nobody@example.com" "pw" =
      login [aliceUser] "alice@example.com" "wrong" ∧
    login [aliceUser] "nobody@example.com" "pw" =
      .error (mkAppError "Incorrect email or password" 401) :=
  ⟨(claim_C4 [aliceUser] "nobody@example.com" "alice@example.com" "pw"
      "wrong" aliceUser rfl rfl (by decide)).1,
    (claim_C4 [aliceUser] "nobody@example.com" "alice@example.com" "pw"
      "wrong" aliceUser rfl rfl (by decide)).2.1⟩

/-- Claim C5: the guard extracts the token from the cookie when the cookie
is (truthily) present, so the cookie wins over any Authorization header; the
Bearer header supplies the token only when the cookie is absent; and with
neither credential the request is rejected with the 401 no-credential
error "You are not logged in". -/
theorem claim_C5 (req : Request) (c : String) (store : List User)
    (secret nowSec : Nat) :
    (req.cookieToken = some c → c ≠ "" → extractToken req = some c) ∧
    (req.cookieToken = none →
      ∀ h, req.authorization = some h → jsStartsWith h "Bearer" = true →
        extractToken req = (jsSplit ' ' h).get? 1) ∧
    (req.cookieToken = none → req.authorization = none →
      (protect store secret nowSec req).outcome = .error .noToken ∧
      protectResponse store secret nowSec req =
        .error (mkAppError "You are not logged in" 401) ∧
      (mkAppError "You are not logged in" 401).statusCode = 401) := by
  refine ⟨fun hc hne => ?_, fun hc h ha hb => ?_, fun hc ha => ?_⟩
  · simp [extractToken, jsTruthy, hc, hne]
  · simp [extractToken, jsTruthy, hc, ha, hb]
  · have hx : extractToken req = none := by
      simp [extractToken, jsTruthy, hc, ha]
    exact ⟨by simp [protect, hx],
      by simp [protectResponse, protect, hx, authErrToAppError], rfl⟩

/-- Claim C5, witness: cookie wins over a Bearer header, the Bearer header
is used when the cookie is absent, and a credential-free request receives
the 401 no-credential error. -/
theorem claim_C5_witness :
    extractToken ⟨some "ck", some "Bearer abc"⟩ = some "ck" ∧
    extractToken ⟨none, some "Bearer abc"⟩ = some "abc" ∧
    protectResponse [] 3 100 ⟨none, none⟩ =
      .error (mkAppError "You are not logged in" 401) := by
  refine ⟨(claim_C5 ⟨some "ck", some "Bearer abc"⟩ "ck" [] 3 100).1 rfl
      (by decide), ?_,
    ((claim_C5 ⟨none, none⟩ "" [] 3 100).2.2 rfl rfl).2.1⟩
  have h := (claim_C5 ⟨none, some "Bearer abc"⟩ "" [] 3 100).2.1 rfl
    "Bearer abc" rfl (by decide)
  rw [h]
  exact rfl

/-- Claim C6: whenever verification of the presented token fails — bad
signature (e.g., an altered signature segment), malformed token, or expiry —
the pipeline rejects at the Verify step with a 401 error and performs no
Credential Store read. -/
theorem claim_C6 (store : List User) (secret nowSec : Nat) (req : Request)
    (t : String) (e : VerifyError)
    (hx : extractToken req = some t) (ht : t ≠ "")
    (hv : jwtVerify secret nowSec t = .error e) :
    (protect store secret nowSec req).storeReads = 0 ∧
    (protect store secret nowSec req).outcome = .error (.jwt e) ∧
    protectResponse store secret nowSec req =
      .error (authErrToAppError (.jwt e)) ∧
    (authErrToAppError (.jwt e)).statusCode = 401 := by
  refine ⟨by simp [protect, hx, ht, hv], by simp [protect, hx, ht, hv],
    by simp [protectResponse, protect, hx, ht, hv], ?_⟩
  cases e <;> rfl

/-- Claim C6, witness: `aliceToken` with one unit added to its signature
segment is rejected as a bad signature with no store read. -/
theorem claim_C6_witness :
    (protect [aliceUser] 3 100
        ⟨some (encodeToken { aliceToken with sig := aliceToken.sig + 1 }),
          none⟩).storeReads = 0 ∧
    (protect [aliceUser] 3 100
        ⟨some (encodeToken { aliceToken with sig := aliceToken.sig + 1 }),
          none⟩).outcome = .error (.jwt .badSignature) :=
  ⟨(claim_C6 [aliceUser] 3 100
      ⟨some (encodeToken { aliceToken with sig := aliceToken.sig + 1 }),
        none⟩
      (encodeToken { aliceToken with sig := aliceToken.sig + 1 })
      .badSignature rfl (by decide) rfl).1,
    (claim_C6 [aliceUser] 3 100
      ⟨some (encodeToken { aliceToken with sig := aliceToken.sig + 1 }),
        none⟩
      (encodeToken { aliceToken with sig := aliceToken.sig + 1 })
      .badSignature rfl (by decide) rfl).2.1⟩

/-- Claim C7: logout overwrites the cookie with the sentinel "none" expiring
10 seconds later and answers 200, while leaving the store untouched; hence
any token the guard accepted before the logout is still accepted afterwards
— there is no revocation. -/
theorem claim_C7 (store : List User) (nowMs : Nat) (env : String)
    (secret nowSec2 : Nat) (req : Request) (user : User) :
    (logout store nowMs env).store = store ∧
    (logout store nowMs env).cookie.value = "none" ∧
    (logout store nowMs env).cookie.expiresMs = nowMs + 10 * 1000 ∧
    (logout store nowMs env).httpStatus = 200 ∧
    (protectResponse store secret nowSec2 req = .ok user →
      protectResponse (logout store nowMs env).store secret nowSec2 req =
        .ok user) :=
  ⟨rfl, rfl, rfl, rfl, fun h => h⟩

/-- Claim C7, witness: a concrete accepted token is still accepted against
the post-logout server state. -/
theorem claim_C7_witness :
    protectResponse (logout [aliceUser] 5000 "production").store 3 100
      aliceReq = .ok aliceUser :=
  (claim_C7 [aliceUser] 5000 "production" 3 100 aliceReq aliceUser).2.2.2.2
    rfl

/-- Claim C8, counterexample: with token TTL one day and cookie lifetime
seven days — a configuration nothing in the system rejects — the cookie set
by `createSendToken` expires at 604800000 ms while the token it carries
expires at 86400000 ms. -/
theorem claim_C8_counterexample :
    (createSendToken ⟨1, 86400, 7, "production"⟩ 1 0).2.expiresMs =
      604800000 ∧
    tokenExpiresMs (createSendToken ⟨1, 86400, 7, "production"⟩ 1 0).1 =
      86400000 ∧
    (604800000 : Nat) ≠ 86400000 :=
  ⟨rfl, rfl, by decide⟩

/-- Claim C8 (amended): the cookie expiry equals the token's embedded expiry
exactly when the configured cookie lifetime in days corresponds to the
configured token TTL (cookie days times 86400 seconds equals the TTL, as
with the defaults of 7 and 7d) and the clock is whole-second aligned; the
code does not enforce this correspondence between the two settings. -/
theorem claim_C8 (cfg : Config) (uid nowMs : Nat)
    (hcfg : cfg.jwtCookieExpiresInDays * 86400 = cfg.jwtExpiresInSec)
    (hnow : nowMs % 1000 = 0) :
    (createSendToken cfg uid nowMs).2.expiresMs =
      tokenExpiresMs (createSendToken cfg uid nowMs).1 := by
  simp only [createSendToken, tokenExpiresMs, signToken]
  omega

/-- Claim C8, witness: at the default configuration (7-day TTL, 7-day
cookie) the two expiries coincide. -/
theorem claim_C8_witness :
    (createSendToken ⟨1, 604800, 7, "production"⟩ 1 123000).2.expiresMs =
      tokenExpiresMs (createSendToken ⟨1, 604800, 7, "production"⟩ 1
        123000).1 :=
  claim_C8 ⟨1, 604800, 7, "production"⟩ 1 123000 (by decide) (by decide)

/-- Claim C9: with no token cookie and an Authorization header that does not
start with "Bearer", the guard treats the request as carrying no credential:
it rejects with the 401 "You are not logged in" error, with no verification
attempt and no store read. -/
theorem claim_C9 (store : List User) (secret nowSec : Nat) (req : Request)
    (h : String)
    (hc : req.cookieToken = none) (ha : req.authorization = some h)
    (hb : jsStartsWith h "Bearer" = false) :
    (protect store secret nowSec req).outcome = .error .noToken ∧
    (protect store secret nowSec req).storeReads = 0 ∧
    protectResponse store secret nowSec req =
      .error (mkAppError "You are not logged in" 401) := by
  have hx : extractToken req = none := by
    simp [extractToken, jsTruthy, hc, ha, hb]
  exact ⟨by simp [protect, hx], by simp [protect, hx],
    by simp [protectResponse, protect, hx, authErrToAppError]⟩

/-- Claim C9, witness: a request with only `Authorization: Token abc` gets
the no-credential rejection with zero store reads. -/
theorem claim_C9_witness :
    (protect [aliceUser] 3 100 ⟨none, some "Token abc"⟩).outcome =
      .error .noToken ∧
    (protect [aliceUser] 3 100 ⟨none, some "Token abc"⟩).storeReads = 0 :=
  ⟨(claim_C9 [aliceUser] 3 100 ⟨none, some "Token abc"⟩ "Token abc" rfl rfl
      (by decide)).1,
    (claim_C9 [aliceUser] 3 100 ⟨none, some "Token abc"⟩ "Token abc" rfl rfl
      (by decide)).2.1⟩

/-- Claim C10: every `AppError` built from (message, statusCode) has
`isOperational` true, the given status code and message, and status "fail"
exactly when the decimal status code starts with "4" (otherwise "error");
and the central handler's defaulting assigns 500 and "error" to an incoming
error lacking those fields. -/
theorem claim_C10 (m : String) (c : Nat) (e : RawErr) :
    (mkAppError m c).isOperational = true ∧
    (mkAppError m c).statusCode = c ∧
    (mkAppError m c).message = m ∧
    ((mkAppError m c).status = "fail" ↔
      jsStartsWith (toString c) "4" = true) ∧
    (jsStartsWith (toString c) "4" = false →
      (mkAppError m c).status = "error") ∧
    (e.statusCode = none → e.status = none →
      errorHandlerDefaults e = (500, "error")) := by
  refine ⟨rfl, rfl, rfl, ?_, ?_, fun h1 h2 => ?_⟩
  · unfold mkAppError
    by_cases h : jsStartsWith (toString c) "4" = true
    · simp [h]
    · simp [h]
  · intro h
    simp [mkAppError, h]
  · simp [errorHandlerDefaults, jsOrNat, jsOrStr, h1, h2]

/-- Claim C10, witness: 404 yields "fail", 500 yields "error", and a bare
error is defaulted to (500, "error"). -/
theorem claim_C10_witness :
    (mkAppError "x" 404).status = "fail" ∧
    (mkAppError "y" 500).status = "error" ∧
    errorHandlerDefaults ⟨none, none⟩ = (500, "error") :=
  ⟨((claim_C10 "x" 404 ⟨none, none⟩).2.2.2.1).mpr (by decide),
    (claim_C10 "y" 500 ⟨none, none⟩).2.2.2.2.1 (by decide),
    (claim_C10 "z" 0 ⟨none, none⟩).2.2.2.2.2 rfl rfl⟩

end MernAuth
